import Mathlib

/-!
# Embassy backend: shallow embedding and verification

Shallow embedding of the embassy-backend HTTP handlers (Express routes over a
MySQL store) and proofs about them.  Each table is modelled as a `List` of row
structures; each route handler becomes a pure Lean function from the request
inputs and the current table contents to a response plus the updated table.

External collaborators are abstracted as follows:
* `JSON.parse` / `JSON.stringify` on the `status_history` TEXT column: the
  column is modelled by `HistoryText`, whose three constructors stand for
  NULL/empty text (falsy in JS), text that parses as a JSON array of history
  entries, and non-empty text on which `JSON.parse` throws.
* `bcrypt.hash` / `bcrypt.compare`: modelled by a deterministic injective
  tagging function (`bcryptHash`) and comparison against it.
* SendGrid email delivery: modelled by a pair of booleans (API key configured,
  delivery succeeds); the handler records the attempt in its output.
* PDF / barcode rendering: a PDF success response carries the database row it
  was rendered from; the byte stream itself is not modelled.
-/

namespace Embassy

/-- A JSON value as produced by `res.json(...)`.  Only the constructors the
backend actually emits are modelled. -/
inductive Json where
  | jbool (b : Bool)
  | jnum (n : Nat)
  | jstr (s : String)
  | jobj (fields : List (String × Json))

/-- Field lookup in a JSON object (`none` on non-objects or missing keys). -/
def Json.field (j : Json) (k : String) : Option Json :=
  match j with
  | .jobj fs => List.lookup k fs
  | _ => none

/-- An HTTP JSON response: `res.status(code).json(body)`; a bare `res.json(x)`
has code 200. -/
structure ApiResp where
  code : Nat
  body : Json

/-- `{error: msg}` -/
def errBody (msg : String) : Json := .jobj [("error", .jstr msg)]

/-- `{success: true}` -/
def successBody : Json := .jobj [("success", .jbool true)]

/-- The `status_history` TEXT column.  `nullText` is SQL NULL or the empty
string (both falsy in JS); `jsonText l` is text that `JSON.parse` turns into
the array `l` (and is what `JSON.stringify l` produces); `corruptText` is
non-empty text on which `JSON.parse` throws. -/
inductive HistoryText (α : Type) where
  | nullText : HistoryText α
  | jsonText (entries : List α) : HistoryText α
  | corruptText : HistoryText α
deriving Repr, DecidableEq

/-- Visa-style history entry, as pushed by PUT /api/visa-applications/:id/status:
`{status, changedBy, changedAt, previousStatus}`. -/
structure VisaHistEntry where
  status : String
  changedBy : String
  changedAt : String
  previousStatus : String
deriving Repr, DecidableEq

/-- Travel-pass history entry, as pushed by
PUT /api/travel-pass-applications/:id/status: `{status, timestamp}`. -/
structure TravelHistEntry where
  status : String
  timestamp : String
deriving Repr, DecidableEq

/-- A row of `visa_applications`.  The type-specific optional form columns
(gender, date_of_birth, ..., employer_address), which no status/tracking/
authorization logic ever inspects, are collected in `form`. -/
structure VisaApp where
  id : Nat
  user_name : String
  visa_type : String
  status : String
  tracking_number : Option String
  shipping_carrier : Option String
  status_history : HistoryText VisaHistEntry
  created_at : String
  updated_at : String
  form : List (String × Option String)
deriving Repr, DecidableEq

/-- A row of `marriage_applications` (form columns collected in `form`).
The schema declares `status_history TEXT` with the same shape as the visa
table, though no handler ever writes it. -/
structure MarriageApp where
  id : Nat
  user_name : String
  status : String
  tracking_number : Option String
  shipping_carrier : Option String
  status_history : HistoryText VisaHistEntry
  created_at : String
  updated_at : String
  form : List (String × Option String)
deriving Repr, DecidableEq

/-- A row of `birth_certificate_applications` (form columns in `form`). -/
structure BirthApp where
  id : Nat
  user_name : String
  status : String
  tracking_number : Option String
  shipping_carrier : Option String
  status_history : HistoryText VisaHistEntry
  created_at : String
  updated_at : String
  form : List (String × Option String)
deriving Repr, DecidableEq

/-- A row of `travel_pass_applications` (form columns in `form`). -/
structure TravelApp where
  id : Nat
  user_id : Nat
  user_name : String
  status : String
  tracking_number : Option String
  shipping_carrier : Option String
  status_history : HistoryText TravelHistEntry
  created_at : String
  updated_at : String
  form : List (String × Option String)
deriving Repr, DecidableEq

/-- JS `String.prototype.toLowerCase` (ASCII case mapping; defined over the
character list so that it reduces in the kernel). -/
def strToLower (s : String) : String := ⟨s.data.map Char.toLower⟩

/-- `SELECT ... WHERE id = ?` returning the first matching row
(`rows[0]`). -/
def dbFind {ρ : Type} (rid : ρ → Nat) (db : List ρ) (id : Nat) : Option ρ :=
  db.find? (fun a => rid a == id)

/-- `UPDATE ... WHERE id = ?`: applies `f` to every row whose id matches. -/
def dbUpdate {ρ : Type} (rid : ρ → Nat) (db : List ρ) (id : Nat) (f : ρ → ρ) : List ρ :=
  db.map (fun a => if rid a == id then f a else a)

/-- `validStatuses` of the visa, marriage and birth-certificate status
handlers. -/
def stdValidStatuses : List String :=
  ["pending", "under_review", "approved", "denied", "shipped"]

/-- `validStatuses` of the travel-pass status handler. -/
def travelValidStatuses : List String :=
  ["pending", "under_review", "approved", "denied", "issued", "collected"]

/-- The visa handler's 400 message:
`'Invalid status. Must be one of: ' + validStatuses.join(', ')`. -/
def badVisaStatusMsg : String :=
  "Invalid status. Must be one of: " ++ String.intercalate ", " stdValidStatuses

/-- The visa status handler's reading of the stored history:
`if (application.status_history) { try { JSON.parse } catch { [] } }`,
starting from `let statusHistory = []`. -/
def parseOrEmpty {α : Type} : HistoryText α → List α
  | .nullText => []
  | .jsonText l => l
  | .corruptText => []

/-- The travel-pass handler's reading of the stored history:
`current[0]?.status_history ? JSON.parse(current[0].status_history) : []`
with no try/catch, so a throwing `JSON.parse` (here: `none`) propagates to
the route's catch block. -/
def travelReadHistory : HistoryText TravelHistEntry → Option (List TravelHistEntry)
  | .nullText => some []
  | .jsonText l => some l
  | .corruptText => none

/-- Output of a status/tracking update handler: the HTTP response, the table
after the handler ran, and whether a notification email send was attempted
(`some b`: attempted, `b` = delivered). -/
structure UpdateOut (ρ : Type) where
  resp : ApiResp
  db : List ρ
  emailAttempt : Option Bool

/-- PUT /api/visa-applications/:id/status (after auth/admin middleware).
`status` is `none` when the request body has no `status` field;
`sendgridConfigured` models `SENDGRID_API_KEY` being set and `emailDelivery`
whether `sgMail.send` succeeds — the catch around it only logs. -/
def visaUpdateStatus (db : List VisaApp) (id : Nat) (status : Option String)
    (actor now : String) (sendgridConfigured emailDelivery : Bool) : UpdateOut VisaApp :=
  match status with
  | none => ⟨⟨400, errBody badVisaStatusMsg⟩, db, none⟩
  | some s =>
    -- if (!status || !validStatuses.includes(status)) return 400
    if s = "" ∨ s ∉ stdValidStatuses then
      ⟨⟨400, errBody badVisaStatusMsg⟩, db, none⟩
    else
      match dbFind VisaApp.id db id with
      | none => ⟨⟨404, errBody "Application not found"⟩, db, none⟩
      | some app =>
        let oldStatus := app.status
        let newHist := parseOrEmpty app.status_history ++ [⟨s, actor, now, oldStatus⟩]
        let db' := dbUpdate VisaApp.id db id (fun a =>
          { a with status := s, status_history := .jsonText newHist, updated_at := now })
        let email := if sendgridConfigured then some emailDelivery else none
        ⟨⟨200, .jobj [("success", .jbool true),
            ("application", .jobj [("id", .jnum app.id), ("status", .jstr s),
              ("previousStatus", .jstr oldStatus)])]⟩, db', email⟩

/-- PUT /api/marriage-applications/:id/status: validates the status, then runs
a bare `UPDATE ... WHERE id = ?` (no existence check, no history write, no
email) and replies `{success:true}`. -/
def marriageUpdateStatus (db : List MarriageApp) (id : Nat) (status : Option String)
    (now : String) : UpdateOut MarriageApp :=
  match status with
  | none => ⟨⟨400, errBody "Invalid status"⟩, db, none⟩
  | some s =>
    if s = "" ∨ s ∉ stdValidStatuses then
      ⟨⟨400, errBody "Invalid status"⟩, db, none⟩
    else
      ⟨⟨200, successBody⟩,
       dbUpdate MarriageApp.id db id (fun a => { a with status := s, updated_at := now }),
       none⟩

/-- PUT /api/birth-certificate-applications/:id/status: same shape as the
marriage handler. -/
def birthUpdateStatus (db : List BirthApp) (id : Nat) (status : Option String)
    (now : String) : UpdateOut BirthApp :=
  match status with
  | none => ⟨⟨400, errBody "Invalid status"⟩, db, none⟩
  | some s =>
    if s = "" ∨ s ∉ stdValidStatuses then
      ⟨⟨400, errBody "Invalid status"⟩, db, none⟩
    else
      ⟨⟨200, successBody⟩,
       dbUpdate BirthApp.id db id (fun a => { a with status := s, updated_at := now }),
       none⟩

/-- PUT /api/travel-pass-applications/:id/status: validates against the
travel enum (`!validStatuses.includes(status)`, no separate falsiness check),
reads `status_history` of `current[0]` if present (no row: history is `[]`
and the UPDATE matches nothing), pushes `{status, timestamp}` and writes.  A
throwing `JSON.parse` lands in the catch block: 500, nothing written. -/
def travelUpdateStatus (db : List TravelApp) (id : Nat) (status : Option String)
    (now : String) : UpdateOut TravelApp :=
  match status with
  | none => ⟨⟨400, errBody "Invalid status"⟩, db, none⟩
  | some s =>
    if s ∉ travelValidStatuses then
      ⟨⟨400, errBody "Invalid status"⟩, db, none⟩
    else
      match dbFind TravelApp.id db id with
      | none =>
        ⟨⟨200, successBody⟩,
         dbUpdate TravelApp.id db id (fun a =>
           { a with status := s, status_history := .jsonText [⟨s, now⟩], updated_at := now }),
         none⟩
      | some app =>
        match travelReadHistory app.status_history with
        | none => ⟨⟨500, errBody "Server error"⟩, db, none⟩
        | some hist =>
          ⟨⟨200, successBody⟩,
           dbUpdate TravelApp.id db id (fun a =>
             { a with
               status := s
               status_history := .jsonText (hist ++ [⟨s, now⟩])
               updated_at := now }),
           none⟩

/-- PUT /api/visa-applications/:id/tracking: requires a non-empty (after
trim) tracking number, 404s on a missing row, writes tracking number and
carrier, attempts a notification email. -/
def visaUpdateTracking (db : List VisaApp) (id : Nat) (trackingNumber carrier : Option String)
    (now : String) (sendgridConfigured emailDelivery : Bool) : UpdateOut VisaApp :=
  match trackingNumber with
  | none => ⟨⟨400, errBody "Tracking number is required"⟩, db, none⟩
  | some t =>
    if t = "" ∨ t.trim = "" then
      ⟨⟨400, errBody "Tracking number is required"⟩, db, none⟩
    else
      match dbFind VisaApp.id db id with
      | none => ⟨⟨404, errBody "Application not found"⟩, db, none⟩
      | some app =>
        let db' := dbUpdate VisaApp.id db id (fun a =>
          { a with tracking_number := some t.trim, shipping_carrier := carrier, updated_at := now })
        let email := if sendgridConfigured then some emailDelivery else none
        ⟨⟨200, .jobj [("success", .jbool true),
            ("application", .jobj [("id", .jnum app.id), ("trackingNumber", .jstr t.trim),
              ("carrier", carrier.elim (.jstr "") .jstr)])]⟩, db', email⟩

/-- PUT /api/marriage-applications/:id/tracking: `!trackingNumber` check only
(no trim-emptiness test, no existence check, no email), then a bare UPDATE. -/
def marriageUpdateTracking (db : List MarriageApp) (id : Nat)
    (trackingNumber carrier : Option String) (now : String) : UpdateOut MarriageApp :=
  match trackingNumber with
  | none => ⟨⟨400, errBody "Tracking number is required"⟩, db, none⟩
  | some t =>
    if t = "" then ⟨⟨400, errBody "Tracking number is required"⟩, db, none⟩
    else
      ⟨⟨200, successBody⟩,
       dbUpdate MarriageApp.id db id (fun a =>
         { a with tracking_number := some t.trim, shipping_carrier := carrier, updated_at := now }),
       none⟩

/-- PUT /api/birth-certificate-applications/:id/tracking. -/
def birthUpdateTracking (db : List BirthApp) (id : Nat)
    (trackingNumber carrier : Option String) (now : String) : UpdateOut BirthApp :=
  match trackingNumber with
  | none => ⟨⟨400, errBody "Tracking number is required"⟩, db, none⟩
  | some t =>
    if t = "" then ⟨⟨400, errBody "Tracking number is required"⟩, db, none⟩
    else
      ⟨⟨200, successBody⟩,
       dbUpdate BirthApp.id db id (fun a =>
         { a with tracking_number := some t.trim, shipping_carrier := carrier, updated_at := now }),
       none⟩

/-- PUT /api/travel-pass-applications/:id/tracking. -/
def travelUpdateTracking (db : List TravelApp) (id : Nat)
    (trackingNumber carrier : Option String) (now : String) : UpdateOut TravelApp :=
  match trackingNumber with
  | none => ⟨⟨400, errBody "Tracking number is required"⟩, db, none⟩
  | some t =>
    if t = "" then ⟨⟨400, errBody "Tracking number is required"⟩, db, none⟩
    else
      ⟨⟨200, successBody⟩,
       dbUpdate TravelApp.id db id (fun a =>
         { a with tracking_number := some t.trim, shipping_carrier := carrier, updated_at := now }),
       none⟩

/-- The row inserted by POST /api/visa-applications: `status` is the literal
`'pending'` in the INSERT column list; `user_name` is lowercased. -/
def mkVisaApp (id : Nat) (userName visaType now : String)
    (form : List (String × Option String)) : VisaApp :=
  { id := id, user_name := strToLower userName, visa_type := visaType, status := "pending",
    tracking_number := none, shipping_carrier := none, status_history := .nullText,
    created_at := now, updated_at := now, form := form }

/-- The row inserted by POST /api/marriage-applications: the INSERT omits
`status`, so the schema default `'pending'` applies; `user_name` lowercased. -/
def mkMarriageApp (id : Nat) (userName now : String)
    (form : List (String × Option String)) : MarriageApp :=
  { id := id, user_name := strToLower userName, status := "pending",
    tracking_number := none, shipping_carrier := none, status_history := .nullText,
    created_at := now, updated_at := now, form := form }

/-- The row inserted by POST /api/birth-certificate-applications: the INSERT
omits `status`, so the schema default `'pending'` applies. -/
def mkBirthApp (id : Nat) (userName now : String)
    (form : List (String × Option String)) : BirthApp :=
  { id := id, user_name := strToLower userName, status := "pending",
    tracking_number := none, shipping_carrier := none, status_history := .nullText,
    created_at := now, updated_at := now, form := form }

/-- The row inserted by POST /api/travel-pass-applications: `status` is the
literal `'pending'`; `user_name` is taken from the token verbatim (this
handler does not lowercase). -/
def mkTravelApp (id userId : Nat) (userName now : String)
    (form : List (String × Option String)) : TravelApp :=
  { id := id, user_id := userId, user_name := userName, status := "pending",
    tracking_number := none, shipping_carrier := none, status_history := .nullText,
    created_at := now, updated_at := now, form := form }

/-- Response of a read endpoint: a list of rows (`res.json(rows)`), a single
row (`res.json(application)`), or an error object (which carries no row
data).  Column projection and the ORDER BY clause of the SQL are not
modelled; `rows` carries the selected rows in store order. -/
inductive ReadResp (ρ : Type) where
  | rows (items : List ρ)
  | row (item : ρ)
  | failure (code : Nat) (msg : String)
deriving Repr, DecidableEq

/-- Response of a PDF endpoint: a rendered document (carrying the row it was
generated from; the stream embeds a code128 barcode of `String(id)`), or an
error object. -/
inductive PdfResp (ρ : Type) where
  | rendered (source : ρ)
  | failure (code : Nat) (msg : String)
deriving Repr, DecidableEq

/-- GET /api/visa-applications/user/:username (after auth middleware). -/
def visaListByUser (db : List VisaApp) (callerUsername : String) (callerIsAdmin : Bool)
    (username : String) : ReadResp VisaApp :=
  if username = "" then .failure 400 "Missing username"
  else if callerIsAdmin = false ∧ callerUsername ≠ strToLower username then
    .failure 403 "Access denied"
  else .rows (db.filter (fun a => a.user_name == strToLower username))

/-- GET /api/visa-applications/:id. -/
def visaGetById (db : List VisaApp) (callerUsername : String) (callerIsAdmin : Bool)
    (id : Nat) : ReadResp VisaApp :=
  match dbFind VisaApp.id db id with
  | none => .failure 404 "Application not found"
  | some app =>
    if callerIsAdmin = false ∧ callerUsername ≠ app.user_name then
      .failure 403 "Access denied"
    else .row app

/-- GET /api/visa-applications/:id/pdf. -/
def visaPdf (db : List VisaApp) (callerUsername : String) (callerIsAdmin : Bool)
    (id : Nat) : PdfResp VisaApp :=
  match dbFind VisaApp.id db id with
  | none => .failure 404 "Not found"
  | some app =>
    if callerIsAdmin = false ∧ callerUsername ≠ app.user_name then
      .failure 403 "Access denied"
    else .rendered app

/-- GET /api/marriage-applications/user/:username. -/
def marriageListByUser (db : List MarriageApp) (callerUsername : String) (callerIsAdmin : Bool)
    (username : String) : ReadResp MarriageApp :=
  if username = "" then .failure 400 "Missing username"
  else if callerIsAdmin = false ∧ callerUsername ≠ strToLower username then
    .failure 403 "Access denied"
  else .rows (db.filter (fun a => a.user_name == strToLower username))

/-- GET /api/marriage-applications/:id. -/
def marriageGetById (db : List MarriageApp) (callerUsername : String) (callerIsAdmin : Bool)
    (id : Nat) : ReadResp MarriageApp :=
  match dbFind MarriageApp.id db id with
  | none => .failure 404 "Application not found"
  | some app =>
    if callerIsAdmin = false ∧ callerUsername ≠ app.user_name then
      .failure 403 "Access denied"
    else .row app

/-- GET /api/marriage-applications/:id/pdf. -/
def marriagePdf (db : List MarriageApp) (callerUsername : String) (callerIsAdmin : Bool)
    (id : Nat) : PdfResp MarriageApp :=
  match dbFind MarriageApp.id db id with
  | none => .failure 404 "Not found"
  | some app =>
    if callerIsAdmin = false ∧ callerUsername ≠ app.user_name then
      .failure 403 "Access denied"
    else .rendered app

/-- GET /api/birth-certificate-applications/user/:username. -/
def birthListByUser (db : List BirthApp) (callerUsername : String) (callerIsAdmin : Bool)
    (username : String) : ReadResp BirthApp :=
  if username = "" then .failure 400 "Missing username"
  else if callerIsAdmin = false ∧ callerUsername ≠ strToLower username then
    .failure 403 "Access denied"
  else .rows (db.filter (fun a => a.user_name == strToLower username))

/-- GET /api/birth-certificate-applications/:id. -/
def birthGetById (db : List BirthApp) (callerUsername : String) (callerIsAdmin : Bool)
    (id : Nat) : ReadResp BirthApp :=
  match dbFind BirthApp.id db id with
  | none => .failure 404 "Application not found"
  | some app =>
    if callerIsAdmin = false ∧ callerUsername ≠ app.user_name then
      .failure 403 "Access denied"
    else .row app

/-- GET /api/birth-certificate-applications/:id/pdf. -/
def birthPdf (db : List BirthApp) (callerUsername : String) (callerIsAdmin : Bool)
    (id : Nat) : PdfResp BirthApp :=
  match dbFind BirthApp.id db id with
  | none => .failure 404 "Not found"
  | some app =>
    if callerIsAdmin = false ∧ callerUsername ≠ app.user_name then
      .failure 403 "Access denied"
    else .rendered app

/-- GET /api/travel-pass-applications/user/:username: the guard compares the
route parameter to the token username verbatim (`user.username !== username`,
no lowercasing), and the query filters `user_name = username` verbatim. -/
def travelListByUser (db : List TravelApp) (callerUsername : String) (callerIsAdmin : Bool)
    (username : String) : ReadResp TravelApp :=
  if callerUsername ≠ username ∧ callerIsAdmin = false then .failure 403 "Forbidden"
  else .rows (db.filter (fun a => a.user_name == username))

/-- GET /api/travel-pass-applications/:id. -/
def travelGetById (db : List TravelApp) (callerUsername : String) (callerIsAdmin : Bool)
    (id : Nat) : ReadResp TravelApp :=
  match dbFind TravelApp.id db id with
  | none => .failure 404 "Application not found"
  | some app =>
    if callerIsAdmin = false ∧ callerUsername ≠ app.user_name then
      .failure 403 "Access denied"
    else .row app

/-- GET /api/travel-pass-applications/:id/pdf. -/
def travelPdf (db : List TravelApp) (callerUsername : String) (callerIsAdmin : Bool)
    (id : Nat) : PdfResp TravelApp :=
  match dbFind TravelApp.id db id with
  | none => .failure 404 "Not found"
  | some app =>
    if callerIsAdmin = false ∧ callerUsername ≠ app.user_name then
      .failure 403 "Access denied"
    else .rendered app

/-- A row of `chat_conversations` (`session_id` has a UNIQUE constraint in the
schema; the handler enforces get-or-create sequentially). -/
structure ChatConv where
  id : Nat
  session_id : String
  user_name : String
  user_email : String
  status : String
deriving Repr, DecidableEq

/-- A row of `chat_messages`. -/
structure ChatMsg where
  id : Nat
  conversation_id : Nat
  sender_type : String
  sender_name : Option String
  message : String
deriving Repr, DecidableEq

/-- Chat tables plus the AUTO_INCREMENT counter of `chat_conversations`. -/
structure ChatState where
  convs : List ChatConv
  msgs : List ChatMsg
  nextConvId : Nat
deriving Repr, DecidableEq

/-- Response of POST /api/chat/conversation: `{conversation, messages}` or an
error object. -/
inductive ConvResp where
  | conv (conversation : ChatConv) (messages : List ChatMsg)
  | failure (code : Nat) (msg : String)
deriving Repr, DecidableEq

/-- `SELECT * FROM chat_conversations WHERE session_id = ?`, first row. -/
def findConvBySession (cs : List ChatConv) (sid : String) : Option ChatConv :=
  cs.find? (fun c => c.session_id == sid)

/-- POST /api/chat/conversation: rejects missing (falsy) fields with 400;
returns the existing conversation (with its messages, ordered by created_at)
when one exists for the session id; otherwise inserts a new row with status
'active' and echoes it back with an empty message list. -/
def chatConversation (st : ChatState) (sessionId userName userEmail : String) :
    ConvResp × ChatState :=
  if sessionId = "" ∨ userName = "" ∨ userEmail = "" then
    (.failure 400 "Missing required fields", st)
  else
    match findConvBySession st.convs sessionId with
    | some c =>
      (.conv c (st.msgs.filter (fun m => m.conversation_id == c.id)), st)
    | none =>
      let c : ChatConv :=
        { id := st.nextConvId, session_id := sessionId, user_name := userName,
          user_email := userEmail, status := "active" }
      (.conv c [], { st with convs := st.convs ++ [c], nextConvId := st.nextConvId + 1 })

/-- A row of `login` (the users table); `password` holds the bcrypt hash. -/
structure UserRow where
  id : Nat
  username : String
  password : String
  firstname : String
  lastname : String
deriving Repr, DecidableEq

/-- The users table plus its AUTO_INCREMENT counter. -/
structure UsersTable where
  rows : List UserRow
  nextId : Nat
deriving Repr, DecidableEq

/-- Model of `bcrypt.hash(password, 10)`: a deterministic injective tag (the
salt is not modelled; only `hash`/`compare` consistency matters here). -/
def bcryptHash (pw : String) : String := "bcrypt$2b$10$" ++ pw

/-- Model of `bcrypt.compare(password, hash)`. -/
def bcryptCompare (pw hash : String) : Bool := hash == bcryptHash pw

/-- JS `String.prototype.includes`: substring containment. -/
def strContains (s sub : String) : Bool := decide (List.IsInfix sub.toList s.toList)

/-- The claims embedded in a signed JWT (`generateToken` payload; the signing
itself is delegated to the jsonwebtoken library and not modelled). -/
structure TokenPayload where
  id : Nat
  username : String
  isAdmin : Bool
deriving Repr, DecidableEq

/-- Response of POST /api/signup and POST /api/login:
`{success, token, user: {id, username, fullName, isAdmin}}` on success. -/
inductive AuthResp where
  | signedIn (token : TokenPayload) (userId : Nat) (username fullName : String) (isAdmin : Bool)
  | failure (code : Nat) (msg : String)
deriving Repr, DecidableEq

/-- POST /api/signup (after validation middleware): inserts the lowercased
username (UNIQUE violation maps to 409) and issues a token with
`isAdmin: false` unconditionally. -/
def signup (db : UsersTable) (username password firstName lastName : String) :
    AuthResp × UsersTable :=
  if db.rows.any (fun u => u.username == strToLower username) then
    (.failure 409 "Email already registered", db)
  else
    let uid := db.nextId
    let row : UserRow :=
      { id := uid, username := strToLower username, password := bcryptHash password,
        firstname := firstName, lastname := lastName }
    (.signedIn { id := uid, username := strToLower username, isAdmin := false }
       uid (strToLower username) (firstName ++ " " ++ lastName) false,
     { rows := db.rows ++ [row], nextId := uid + 1 })

/-- POST /api/login: looks up the lowercased username, checks the password
hash, and computes `isAdmin = user.username.includes('admin')`. -/
def login (db : UsersTable) (username password : String) : AuthResp :=
  match db.rows.find? (fun u => u.username == strToLower username) with
  | none => .failure 401 "Invalid credentials"
  | some user =>
    if bcryptCompare password user.password = false then .failure 401 "Invalid credentials"
    else
      let isAdmin := strContains user.username "admin"
      .signedIn { id := user.id, username := user.username, isAdmin := isAdmin }
        user.id user.username (user.firstname ++ " " ++ user.lastname) isAdmin

/-- The four application tables. -/
structure Store where
  visas : List VisaApp
  marriages : List MarriageApp
  births : List BirthApp
  travels : List TravelApp
deriving Repr, DecidableEq

def emptyStore : Store := ⟨[], [], [], []⟩

/-- One store-mutating request: a create, status-update or tracking-update
handler run on any of the four application tables with arbitrary inputs.
Read endpoints do not mutate the store.  The schema-migration scripts are
treated as setup and are outside this relation. -/
inductive Step : Store → Store → Prop
  | visaCreate (s : Store) (id : Nat) (userName visaType now : String)
      (form : List (String × Option String)) :
      Step s { s with visas := s.visas ++ [mkVisaApp id userName visaType now form] }
  | marriageCreate (s : Store) (id : Nat) (userName now : String)
      (form : List (String × Option String)) :
      Step s { s with marriages := s.marriages ++ [mkMarriageApp id userName now form] }
  | birthCreate (s : Store) (id : Nat) (userName now : String)
      (form : List (String × Option String)) :
      Step s { s with births := s.births ++ [mkBirthApp id userName now form] }
  | travelCreate (s : Store) (id userId : Nat) (userName now : String)
      (form : List (String × Option String)) :
      Step s { s with travels := s.travels ++ [mkTravelApp id userId userName now form] }
  | visaStatus (s : Store) (id : Nat) (st : Option String) (actor now : String)
      (cfg mail : Bool) :
      Step s { s with visas := (visaUpdateStatus s.visas id st actor now cfg mail).db }
  | marriageStatus (s : Store) (id : Nat) (st : Option String) (now : String) :
      Step s { s with marriages := (marriageUpdateStatus s.marriages id st now).db }
  | birthStatus (s : Store) (id : Nat) (st : Option String) (now : String) :
      Step s { s with births := (birthUpdateStatus s.births id st now).db }
  | travelStatus (s : Store) (id : Nat) (st : Option String) (now : String) :
      Step s { s with travels := (travelUpdateStatus s.travels id st now).db }
  | visaTracking (s : Store) (id : Nat) (tn carrier : Option String) (now : String)
      (cfg mail : Bool) :
      Step s { s with visas := (visaUpdateTracking s.visas id tn carrier now cfg mail).db }
  | marriageTracking (s : Store) (id : Nat) (tn carrier : Option String) (now : String) :
      Step s { s with marriages := (marriageUpdateTracking s.marriages id tn carrier now).db }
  | birthTracking (s : Store) (id : Nat) (tn carrier : Option String) (now : String) :
      Step s { s with births := (birthUpdateTracking s.births id tn carrier now).db }
  | travelTracking (s : Store) (id : Nat) (tn carrier : Option String) (now : String) :
      Step s { s with travels := (travelUpdateTracking s.travels id tn carrier now).db }

/-- Store states reachable from the empty store through the handlers. -/
inductive Reachable : Store → Prop
  | init : Reachable emptyStore
  | step {s t : Store} : Reachable s → Step s t → Reachable t

/-- The status invariant: every application row's status is a member of its
type's enum. -/
def StatusesValid (s : Store) : Prop :=
  (∀ a ∈ s.visas, a.status ∈ stdValidStatuses) ∧
  (∀ a ∈ s.marriages, a.status ∈ stdValidStatuses) ∧
  (∀ a ∈ s.births, a.status ∈ stdValidStatuses) ∧
  (∀ a ∈ s.travels, a.status ∈ travelValidStatuses)

section StoreLemmas

variable {ρ σ : Type}

theorem dbUpdate_not_found (rid : ρ → Nat) (f : ρ → ρ) (db : List ρ) (i : Nat)
    (h : dbFind rid db i = none) : dbUpdate rid db i f = db := by
  have h' := List.find?_eq_none.mp h
  unfold dbUpdate
  calc db.map (fun a => if rid a == i then f a else a)
      = db.map (fun a => a) := List.map_congr_left (fun a ha => by simp [h' a ha])
    _ = db := by simp

theorem dbFind_dbUpdate_found (rid : ρ → Nat) (f : ρ → ρ)
    (hf : ∀ a, rid (f a) = rid a) (db : List ρ) (id : Nat) (a : ρ)
    (h : dbFind rid db id = some a) :
    dbFind rid (dbUpdate rid db id f) id = some (f a) := by
  induction db with
  | nil => simp [dbFind] at h
  | cons x t ih =>
    cases hx : (rid x == id) with
    | true =>
      have hfx : (rid (f x) == id) = true := by rw [hf]; exact hx
      simp only [dbFind, List.find?, hx] at h
      obtain rfl : x = a := by injection h
      simp only [dbUpdate, List.map_cons, if_pos hx, dbFind, List.find?, hfx]
    | false =>
      simp only [dbFind, List.find?, hx] at h
      have hrec := ih h
      simp only [dbUpdate, List.map_cons, hx, dbFind, List.find?] at hrec ⊢
      simpa [hx] using hrec

theorem dbUpdate_mem (rid : ρ → Nat) (f : ρ → ρ) (db : List ρ) (id : Nat)
    {b : ρ} (hb : b ∈ dbUpdate rid db id f) :
    ∃ a, a ∈ db ∧ (b = f a ∨ b = a) := by
  unfold dbUpdate at hb
  obtain ⟨a, ha, hab⟩ := List.mem_map.mp hb
  refine ⟨a, ha, ?_⟩
  by_cases h : (rid a == id) = true
  · left; rw [← hab]; simp [h]
  · right; rw [← hab]; simp [h]

theorem dbUpdate_map_eq (rid : ρ → Nat) (f : ρ → ρ) (db : List ρ) (id : Nat)
    (g : ρ → σ) (hg : ∀ a, g (f a) = g a) :
    (dbUpdate rid db id f).map g = db.map g := by
  unfold dbUpdate
  rw [List.map_map]
  exact List.map_congr_left
    (fun a _ => by by_cases h : (rid a == id) = true <;> simp [Function.comp, h, hg])

theorem findConv_append_of_none (cs : List ChatConv) (sid : String) (c : ChatConv)
    (h : findConvBySession cs sid = none) (hc : (c.session_id == sid) = true) :
    findConvBySession (cs ++ [c]) sid = some c := by
  induction cs with
  | nil => simp [findConvBySession, List.find?, hc]
  | cons x t ih =>
    cases hx : (x.session_id == sid) with
    | true => simp [findConvBySession, List.find?, hx] at h
    | false =>
      simp only [findConvBySession, List.find?, hx] at h
      have := ih h
      simp only [findConvBySession, List.cons_append, List.find?, hx]
      simpa [findConvBySession] using this

theorem mem_stdValidStatuses_ne_empty {s : String} (h : s ∈ stdValidStatuses) : s ≠ "" := by
  simp only [stdValidStatuses, List.mem_cons, List.not_mem_nil, or_false] at h
  rcases h with rfl | rfl | rfl | rfl | rfl <;> decide

end StoreLemmas

/-- C4: for every status-update request whose target status is outside the
allowed enum for that application type ({pending, under_review, approved,
denied, shipped}, travel-pass instead {pending, under_review, approved,
denied, issued, collected}), the handler returns 400 and the store is left
unmodified. -/
theorem status_update_invalid_enum_rejected
    (dbV : List VisaApp) (dbM : List MarriageApp) (dbB : List BirthApp) (dbT : List TravelApp)
    (i : Nat) (sV sM sB sT actor now : String) (cfg mail : Bool)
    (hv : sV ∉ stdValidStatuses) (hm : sM ∉ stdValidStatuses) (hb : sB ∉ stdValidStatuses)
    (ht : sT ∉ travelValidStatuses) :
    visaUpdateStatus dbV i (some sV) actor now cfg mail =
      ⟨⟨400, errBody badVisaStatusMsg⟩, dbV, none⟩ ∧
    marriageUpdateStatus dbM i (some sM) now = ⟨⟨400, errBody "Invalid status"⟩, dbM, none⟩ ∧
    birthUpdateStatus dbB i (some sB) now = ⟨⟨400, errBody "Invalid status"⟩, dbB, none⟩ ∧
    travelUpdateStatus dbT i (some sT) now = ⟨⟨400, errBody "Invalid status"⟩, dbT, none⟩ := by
  refine ⟨?_, ?_, ?_, ?_⟩
  · simp [visaUpdateStatus, hv]
  · simp [marriageUpdateStatus, hm]
  · simp [birthUpdateStatus, hb]
  · simp [travelUpdateStatus, ht]

/-- C4 witness: a concrete out-of-enum status ("foo" everywhere; "shipped"
for travel-pass, which is valid for the other types but not for travel) is
rejected with 400 and leaves the concrete stores unmodified. -/
theorem status_update_invalid_enum_rejected_witness :
    visaUpdateStatus [] 1 (some "foo") "admin@example.com" "t1" false false =
      ⟨⟨400, errBody badVisaStatusMsg⟩, [], none⟩ ∧
    marriageUpdateStatus [] 1 (some "foo") "t1" = ⟨⟨400, errBody "Invalid status"⟩, [], none⟩ ∧
    birthUpdateStatus [] 1 (some "foo") "t1" = ⟨⟨400, errBody "Invalid status"⟩, [], none⟩ ∧
    travelUpdateStatus [] 1 (some "shipped") "t1" =
      ⟨⟨400, errBody "Invalid status"⟩, [], none⟩ :=
  status_update_invalid_enum_rejected [] [] [] [] 1 "foo" "foo" "foo" "shipped"
    "admin@example.com" "t1" false false (by decide) (by decide) (by decide) (by decide)

/-- C2 (amended): only the visa status handler looks up the application and
fails with 404 when the id is absent; the marriage, birth-certificate and
travel-pass status handlers run an UPDATE that matches no row and still reply
`{success: true}`, leaving the store unchanged. -/
theorem status_update_missing_id
    (dbV : List VisaApp) (dbM : List MarriageApp) (dbB : List BirthApp) (dbT : List TravelApp)
    (i : Nat) (sV sM sB sT actor now : String) (cfg mail : Bool)
    (hv : sV ∈ stdValidStatuses) (hm : sM ∈ stdValidStatuses) (hb : sB ∈ stdValidStatuses)
    (ht : sT ∈ travelValidStatuses)
    (hnV : dbFind VisaApp.id dbV i = none) (hnM : dbFind MarriageApp.id dbM i = none)
    (hnB : dbFind BirthApp.id dbB i = none) (hnT : dbFind TravelApp.id dbT i = none) :
    visaUpdateStatus dbV i (some sV) actor now cfg mail =
      ⟨⟨404, errBody "Application not found"⟩, dbV, none⟩ ∧
    marriageUpdateStatus dbM i (some sM) now = ⟨⟨200, successBody⟩, dbM, none⟩ ∧
    birthUpdateStatus dbB i (some sB) now = ⟨⟨200, successBody⟩, dbB, none⟩ ∧
    travelUpdateStatus dbT i (some sT) now = ⟨⟨200, successBody⟩, dbT, none⟩ := by
  refine ⟨?_, ?_, ?_, ?_⟩
  · simp [visaUpdateStatus, hv, mem_stdValidStatuses_ne_empty hv, hnV]
  · have hupd : ∀ f, dbUpdate MarriageApp.id dbM i f = dbM :=
      fun f => dbUpdate_not_found _ f _ _ hnM
    simp [marriageUpdateStatus, hm, mem_stdValidStatuses_ne_empty hm, hupd]
  · have hupd : ∀ f, dbUpdate BirthApp.id dbB i f = dbB :=
      fun f => dbUpdate_not_found _ f _ _ hnB
    simp [birthUpdateStatus, hb, mem_stdValidStatuses_ne_empty hb, hupd]
  · have hupd : ∀ f, dbUpdate TravelApp.id dbT i f = dbT :=
      fun f => dbUpdate_not_found _ f _ _ hnT
    simp [travelUpdateStatus, ht, hnT, hupd]

/-- C2 witness: on empty stores (so id 1 is absent everywhere) a concrete
valid transition 404s on the visa handler and reports success on the other
three. -/
theorem status_update_missing_id_witness :
    visaUpdateStatus [] 1 (some "approved") "admin@example.com" "t1" false false =
      ⟨⟨404, errBody "Application not found"⟩, [], none⟩ ∧
    marriageUpdateStatus [] 1 (some "approved") "t1" = ⟨⟨200, successBody⟩, [], none⟩ ∧
    birthUpdateStatus [] 1 (some "approved") "t1" = ⟨⟨200, successBody⟩, [], none⟩ ∧
    travelUpdateStatus [] 1 (some "approved") "t1" = ⟨⟨200, successBody⟩, [], none⟩ :=
  status_update_missing_id [] [] [] [] 1 "approved" "approved" "approved" "approved"
    "admin@example.com" "t1" false false (by decide) (by decide) (by decide) (by decide)
    rfl rfl rfl rfl

/-- C2 counterexample: a valid status update for an absent id on the marriage
handler replies 200 `{success: true}`, not 404 — refuting the claim that all
four application types fail with NotFound. -/
theorem status_update_missing_id_counterexample :
    (marriageUpdateStatus [] 1 (some "approved") "t1").resp.code = 200 ∧
    (marriageUpdateStatus [] 1 (some "approved") "t1").resp.code ≠ 404 ∧
    (marriageUpdateStatus [] 1 (some "approved") "t1").resp.body = successBody :=
  ⟨rfl, by decide, rfl⟩

/-- C1 (amended): on a valid status transition, only the visa handler appends
a history entry carrying `previousStatus` equal to the pre-transition status
(persisted history length grows by exactly one); the travel-pass handler
appends a `{status, timestamp}` entry without any `previousStatus` (length
grows by one when the stored history is absent or parses); the marriage and
birth-certificate handlers never touch `statusHistory` at all. -/
theorem status_history_append_per_type
    (dbV : List VisaApp) (dbT : List TravelApp) (i : Nat) (sV sT actor now : String)
    (cfg mail : Bool)
    (hv : sV ∈ stdValidStatuses) (ht : sT ∈ travelValidStatuses)
    (appV : VisaApp) (hfV : dbFind VisaApp.id dbV i = some appV)
    (appT : TravelApp) (hfT : dbFind TravelApp.id dbT i = some appT)
    (histT : List TravelHistEntry) (hpT : travelReadHistory appT.status_history = some histT) :
    (dbFind VisaApp.id (visaUpdateStatus dbV i (some sV) actor now cfg mail).db i =
       some { appV with
              status := sV
              status_history :=
                .jsonText (parseOrEmpty appV.status_history ++ [⟨sV, actor, now, appV.status⟩])
              updated_at := now }) ∧
    ((parseOrEmpty appV.status_history ++ [(⟨sV, actor, now, appV.status⟩ : VisaHistEntry)]).length
       = (parseOrEmpty appV.status_history).length + 1) ∧
    ((parseOrEmpty appV.status_history ++ [(⟨sV, actor, now, appV.status⟩ : VisaHistEntry)]).getLast?
       = some ⟨sV, actor, now, appV.status⟩) ∧
    (dbFind TravelApp.id (travelUpdateStatus dbT i (some sT) now).db i =
       some { appT with
              status := sT
              status_history := .jsonText (histT ++ [⟨sT, now⟩])
              updated_at := now }) ∧
    ((histT ++ [(⟨sT, now⟩ : TravelHistEntry)]).length = histT.length + 1) ∧
    (∀ (dbM : List MarriageApp) (st : Option String) (nowM : String),
       (marriageUpdateStatus dbM i st nowM).db.map MarriageApp.status_history =
         dbM.map MarriageApp.status_history) ∧
    (∀ (dbB : List BirthApp) (st : Option String) (nowB : String),
       (birthUpdateStatus dbB i st nowB).db.map BirthApp.status_history =
         dbB.map BirthApp.status_history) := by
  refine ⟨?_, by simp, by simp, ?_, by simp, ?_, ?_⟩
  · simp only [visaUpdateStatus]
    rw [if_neg (by simp [hv, mem_stdValidStatuses_ne_empty hv])]
    simp only [hfV]
    exact dbFind_dbUpdate_found VisaApp.id
      (fun a => { a with
                  status := sV
                  status_history :=
                    .jsonText (parseOrEmpty appV.status_history ++ [⟨sV, actor, now, appV.status⟩])
                  updated_at := now })
      (fun a => rfl) dbV i appV hfV
  · simp only [travelUpdateStatus]
    rw [if_neg (by simp [ht])]
    simp only [hfT, hpT]
    exact dbFind_dbUpdate_found TravelApp.id
      (fun a => { a with
                  status := sT
                  status_history := .jsonText (histT ++ [⟨sT, now⟩])
                  updated_at := now })
      (fun a => rfl) dbT i appT hfT
  · intro dbM st nowM
    cases st with
    | none => rfl
    | some s =>
      by_cases hc : s = "" ∨ s ∉ stdValidStatuses
      · simp [marriageUpdateStatus, hc]
      · simp only [marriageUpdateStatus, if_neg hc]
        exact dbUpdate_map_eq _ _ _ _ _ (fun a => rfl)
  · intro dbB st nowB
    cases st with
    | none => rfl
    | some s =>
      by_cases hc : s = "" ∨ s ∉ stdValidStatuses
      · simp [birthUpdateStatus, hc]
      · simp only [birthUpdateStatus, if_neg hc]
        exact dbUpdate_map_eq _ _ _ _ _ (fun a => rfl)

/-- C1 witness: concrete one-row visa and travel stores; the transition
appends exactly one entry (with previousStatus "pending" on the visa side)
and the marriage/birth conjuncts hold at a concrete store. -/
theorem status_history_append_per_type_witness :
    dbFind VisaApp.id
        (visaUpdateStatus [mkVisaApp 1 "alice@example.com" "shortStay" "t0" []] 1
          (some "approved") "admin@example.com" "t1" false false).db 1 =
      some { mkVisaApp 1 "alice@example.com" "shortStay" "t0" [] with
             status := "approved"
             status_history := .jsonText [⟨"approved", "admin@example.com", "t1", "pending"⟩]
             updated_at := "t1" } ∧
    dbFind TravelApp.id
        (travelUpdateStatus [mkTravelApp 1 9 "bob@example.com" "t0" []] 1
          (some "issued") "t1").db 1 =
      some { mkTravelApp 1 9 "bob@example.com" "t0" [] with
             status := "issued"
             status_history := .jsonText [⟨"issued", "t1"⟩]
             updated_at := "t1" } := by
  have h := status_history_append_per_type
    [mkVisaApp 1 "alice@example.com" "shortStay" "t0" []]
    [mkTravelApp 1 9 "bob@example.com" "t0" []] 1 "approved" "issued"
    "admin@example.com" "t1" false false (by decide) (by decide)
    (mkVisaApp 1 "alice@example.com" "shortStay" "t0" []) rfl
    (mkTravelApp 1 9 "bob@example.com" "t0" []) rfl [] rfl
  exact ⟨h.1, h.2.2.2.1⟩

/-- A concrete marriage application with a well-formed stored (empty) history,
used to exercise the marriage status handler on concrete inputs. -/
def cexMarriageApp : MarriageApp :=
  { id := 7, user_name := "alice@example.com", status := "pending",
    tracking_number := none, shipping_carrier := none,
    status_history := .jsonText [], created_at := "t0", updated_at := "t0", form := [] }

/-- C1 counterexample: a valid transition on the marriage handler succeeds
(200) but leaves the persisted `statusHistory` column exactly as it was, so
its parsed length (0) is not one greater than before — refuting the claim
for the marriage application type. -/
theorem status_history_append_counterexample :
    (marriageUpdateStatus [cexMarriageApp] 7 (some "approved") "t1").resp.code = 200 ∧
    (marriageUpdateStatus [cexMarriageApp] 7 (some "approved") "t1").db =
      [{ cexMarriageApp with status := "approved", updated_at := "t1" }] ∧
    ¬ ((parseOrEmpty ({ cexMarriageApp with status := "approved", updated_at := "t1" }
          : MarriageApp).status_history).length
        = (parseOrEmpty cexMarriageApp.status_history).length + 1) :=
  ⟨rfl, by decide, by decide⟩

/-- C3 (amended): the visa status handler treats stored history text that
fails to parse as an empty sequence and the transition still succeeds; the
travel-pass handler only defaults to empty when the stored history is
NULL/empty — when non-empty stored text fails to parse, `JSON.parse` throws,
the route answers 500 and the update is not applied. -/
theorem corrupt_history_handling
    (dbV : List VisaApp) (dbT : List TravelApp) (i : Nat) (sV sT actor now : String)
    (cfg mail : Bool)
    (hv : sV ∈ stdValidStatuses) (ht : sT ∈ travelValidStatuses)
    (appV : VisaApp) (hfV : dbFind VisaApp.id dbV i = some appV)
    (hcV : appV.status_history = .corruptText)
    (appT : TravelApp) (hfT : dbFind TravelApp.id dbT i = some appT)
    (hcT : appT.status_history = .corruptText) :
    ((visaUpdateStatus dbV i (some sV) actor now cfg mail).resp.code = 200) ∧
    (dbFind VisaApp.id (visaUpdateStatus dbV i (some sV) actor now cfg mail).db i =
       some { appV with
              status := sV
              status_history := .jsonText [⟨sV, actor, now, appV.status⟩]
              updated_at := now }) ∧
    (travelUpdateStatus dbT i (some sT) now = ⟨⟨500, errBody "Server error"⟩, dbT, none⟩) := by
  have hne : ¬ (sV = "" ∨ sV ∉ stdValidStatuses) := by
    simp [hv, mem_stdValidStatuses_ne_empty hv]
  refine ⟨?_, ?_, ?_⟩
  · simp only [visaUpdateStatus]
    rw [if_neg hne]
    simp [hfV]
  · simp only [visaUpdateStatus]
    rw [if_neg hne]
    simp only [hfV]
    have h := dbFind_dbUpdate_found VisaApp.id
      (fun a => { a with
                  status := sV
                  status_history :=
                    .jsonText (parseOrEmpty appV.status_history ++ [⟨sV, actor, now, appV.status⟩])
                  updated_at := now })
      (fun a => rfl) dbV i appV hfV
    simpa [hcV, parseOrEmpty] using h
  · simp only [travelUpdateStatus]
    rw [if_neg (by simp [ht])]
    simp [hfT, hcT, travelReadHistory]

/-- A concrete travel-pass application whose stored history text does not
parse as JSON. -/
def cexTravelApp : TravelApp :=
  { id := 3, user_id := 9, user_name := "bob@example.com", status := "pending",
    tracking_number := none, shipping_carrier := none, status_history := .corruptText,
    created_at := "t0", updated_at := "t0", form := [] }

/-- C3 counterexample: on the travel-pass handler, a valid transition against
a row whose stored history fails to parse returns 500 and does not apply the
update — the parse failure blocks the status update, refuting the claim for
the travel-pass type. -/
theorem corrupt_history_counterexample :
    travelUpdateStatus [cexTravelApp] 3 (some "approved") "t1" =
      ⟨⟨500, errBody "Server error"⟩, [cexTravelApp], none⟩ ∧
    (travelUpdateStatus [cexTravelApp] 3 (some "approved") "t1").resp.code ≠ 200 :=
  ⟨rfl, by decide⟩

/-- C3 witness: a concrete visa row with corrupt history still transitions
(200, history rebuilt from empty), while the concrete travel row with corrupt
history draws a 500. -/
theorem corrupt_history_handling_witness :
    ((visaUpdateStatus [{ mkVisaApp 3 "alice@example.com" "shortStay" "t0" [] with
        status_history := .corruptText }] 3
        (some "denied") "admin@example.com" "t1" false false).resp.code = 200) ∧
    (dbFind VisaApp.id (visaUpdateStatus
        [{ mkVisaApp 3 "alice@example.com" "shortStay" "t0" [] with
           status_history := .corruptText }] 3
        (some "denied") "admin@example.com" "t1" false false).db 3 =
      some { mkVisaApp 3 "alice@example.com" "shortStay" "t0" [] with
             status := "denied"
             status_history := .jsonText [⟨"denied", "admin@example.com", "t1", "pending"⟩]
             updated_at := "t1" }) ∧
    (travelUpdateStatus [cexTravelApp] 3 (some "denied") "t1" =
      ⟨⟨500, errBody "Server error"⟩, [cexTravelApp], none⟩) :=
  corrupt_history_handling
    [{ mkVisaApp 3 "alice@example.com" "shortStay" "t0" [] with status_history := .corruptText }]
    [cexTravelApp] 3 "denied" "denied" "admin@example.com" "t1" false false
    (by decide) (by decide)
    { mkVisaApp 3 "alice@example.com" "shortStay" "t0" [] with status_history := .corruptText }
    rfl rfl cexTravelApp rfl rfl

/-- C6: when the notification email send fails during a visa status update
(SendGrid configured, delivery fails), the failure is swallowed: the handler
output records a failed attempt, yet the committed store is identical to the
one committed when delivery succeeds (no rollback) and the response is still
the success payload. -/
theorem email_failure_swallowed
    (db : List VisaApp) (i : Nat) (s actor now : String)
    (hv : s ∈ stdValidStatuses) (app : VisaApp) (hf : dbFind VisaApp.id db i = some app) :
    ((visaUpdateStatus db i (some s) actor now true false).emailAttempt = some false) ∧
    ((visaUpdateStatus db i (some s) actor now true false).resp =
       ⟨200, .jobj [("success", .jbool true),
         ("application", .jobj [("id", .jnum app.id), ("status", .jstr s),
           ("previousStatus", .jstr app.status)])]⟩) ∧
    ((visaUpdateStatus db i (some s) actor now true false).db =
       (visaUpdateStatus db i (some s) actor now true true).db) ∧
    (dbFind VisaApp.id (visaUpdateStatus db i (some s) actor now true false).db i =
       some { app with
              status := s
              status_history :=
                .jsonText (parseOrEmpty app.status_history ++ [⟨s, actor, now, app.status⟩])
              updated_at := now }) := by
  have hne : ¬ (s = "" ∨ s ∉ stdValidStatuses) := by
    simp [hv, mem_stdValidStatuses_ne_empty hv]
  refine ⟨?_, ?_, ?_, ?_⟩
  · simp only [visaUpdateStatus]
    rw [if_neg hne]
    simp [hf]
  · simp only [visaUpdateStatus]
    rw [if_neg hne]
    simp [hf]
  · simp only [visaUpdateStatus]
    rw [if_neg hne, if_neg hne]
    simp [hf]
  · simp only [visaUpdateStatus]
    rw [if_neg hne]
    simp only [hf]
    exact dbFind_dbUpdate_found VisaApp.id
      (fun a => { a with
                  status := s
                  status_history :=
                    .jsonText (parseOrEmpty app.status_history ++ [⟨s, actor, now, app.status⟩])
                  updated_at := now })
      (fun a => rfl) db i app hf

/-- C6 witness: a concrete one-row store; with delivery failing the handler
still answers the success payload and commits the same row as with delivery
succeeding. -/
theorem email_failure_swallowed_witness :
    ((visaUpdateStatus [mkVisaApp 1 "alice@example.com" "shortStay" "t0" []] 1
        (some "approved") "admin@example.com" "t1" true false).emailAttempt = some false) ∧
    ((visaUpdateStatus [mkVisaApp 1 "alice@example.com" "shortStay" "t0" []] 1
        (some "approved") "admin@example.com" "t1" true false).resp =
      ⟨200, .jobj [("success", .jbool true),
        ("application", .jobj [("id", .jnum 1), ("status", .jstr "approved"),
          ("previousStatus", .jstr "pending")])]⟩) ∧
    ((visaUpdateStatus [mkVisaApp 1 "alice@example.com" "shortStay" "t0" []] 1
        (some "approved") "admin@example.com" "t1" true false).db =
      (visaUpdateStatus [mkVisaApp 1 "alice@example.com" "shortStay" "t0" []] 1
        (some "approved") "admin@example.com" "t1" true true).db) ∧
    (dbFind VisaApp.id (visaUpdateStatus [mkVisaApp 1 "alice@example.com" "shortStay" "t0" []] 1
        (some "approved") "admin@example.com" "t1" true false).db 1 =
      some { mkVisaApp 1 "alice@example.com" "shortStay" "t0" [] with
             status := "approved"
             status_history := .jsonText [⟨"approved", "admin@example.com", "t1", "pending"⟩]
             updated_at := "t1" }) :=
  email_failure_swallowed [mkVisaApp 1 "alice@example.com" "shortStay" "t0" []] 1
    "approved" "admin@example.com" "t1" (by decide)
    (mkVisaApp 1 "alice@example.com" "shortStay" "t0" []) rfl

/-- C7 (amended): only the visa status handler returns both the old and the
new status (`{success, application: {id, status, previousStatus}}`); every
successful (HTTP 200) marriage, birth-certificate or travel-pass status
update replies the bare `{success: true}` with neither status in the body. -/
theorem update_status_response_shape
    (db : List VisaApp) (i : Nat) (s actor now : String) (cfg mail : Bool)
    (hv : s ∈ stdValidStatuses) (app : VisaApp) (hf : dbFind VisaApp.id db i = some app) :
    ((visaUpdateStatus db i (some s) actor now cfg mail).resp.body.field "application" =
       some (.jobj [("id", .jnum app.id), ("status", .jstr s),
         ("previousStatus", .jstr app.status)])) ∧
    (∀ (dbM : List MarriageApp) (iM : Nat) (stM : Option String) (nowM : String),
       (marriageUpdateStatus dbM iM stM nowM).resp.code = 200 →
       (marriageUpdateStatus dbM iM stM nowM).resp.body = successBody) ∧
    (∀ (dbB : List BirthApp) (iB : Nat) (stB : Option String) (nowB : String),
       (birthUpdateStatus dbB iB stB nowB).resp.code = 200 →
       (birthUpdateStatus dbB iB stB nowB).resp.body = successBody) ∧
    (∀ (dbT : List TravelApp) (iT : Nat) (stT : Option String) (nowT : String),
       (travelUpdateStatus dbT iT stT nowT).resp.code = 200 →
       (travelUpdateStatus dbT iT stT nowT).resp.body = successBody) := by
  have hne : ¬ (s = "" ∨ s ∉ stdValidStatuses) := by
    simp [hv, mem_stdValidStatuses_ne_empty hv]
  refine ⟨?_, ?_, ?_, ?_⟩
  · simp only [visaUpdateStatus]
    rw [if_neg hne]
    simp only [hf]
    rfl
  · intro dbM iM stM nowM hcode
    cases stM with
    | none => simp [marriageUpdateStatus] at hcode
    | some sM =>
      by_cases hc : sM = "" ∨ sM ∉ stdValidStatuses
      · simp [marriageUpdateStatus, hc] at hcode
      · simp [marriageUpdateStatus, hc]
  · intro dbB iB stB nowB hcode
    cases stB with
    | none => simp [birthUpdateStatus] at hcode
    | some sB =>
      by_cases hc : sB = "" ∨ sB ∉ stdValidStatuses
      · simp [birthUpdateStatus, hc] at hcode
      · simp [birthUpdateStatus, hc]
  · intro dbT iT stT nowT hcode
    cases stT with
    | none => simp [travelUpdateStatus] at hcode
    | some sT =>
      by_cases hc : sT ∉ travelValidStatuses
      · simp [travelUpdateStatus, hc] at hcode
      · cases hfind : dbFind TravelApp.id dbT iT with
        | none => simp [travelUpdateStatus, hc, hfind]
        | some appT =>
          cases hhist : travelReadHistory appT.status_history with
          | none => simp [travelUpdateStatus, hc, hfind, hhist] at hcode
          | some l => simp [travelUpdateStatus, hc, hfind, hhist]

/-- C7 witness: a concrete visa update carries old and new status in its
body; concrete successful marriage, birth and travel updates reply the bare
success object. -/
theorem update_status_response_shape_witness :
    ((visaUpdateStatus [mkVisaApp 1 "alice@example.com" "shortStay" "t0" []] 1
        (some "approved") "admin@example.com" "t1" false false).resp.body.field "application" =
      some (.jobj [("id", .jnum 1), ("status", .jstr "approved"),
        ("previousStatus", .jstr "pending")])) ∧
    ((marriageUpdateStatus [] 1 (some "approved") "t1").resp.code = 200 →
      (marriageUpdateStatus [] 1 (some "approved") "t1").resp.body = successBody) ∧
    ((birthUpdateStatus [] 1 (some "approved") "t1").resp.code = 200 →
      (birthUpdateStatus [] 1 (some "approved") "t1").resp.body = successBody) ∧
    ((travelUpdateStatus [] 1 (some "approved") "t1").resp.code = 200 →
      (travelUpdateStatus [] 1 (some "approved") "t1").resp.body = successBody) := by
  have h := update_status_response_shape
    [mkVisaApp 1 "alice@example.com" "shortStay" "t0" []] 1 "approved"
    "admin@example.com" "t1" false false (by decide)
    (mkVisaApp 1 "alice@example.com" "shortStay" "t0" []) rfl
  exact ⟨h.1, h.2.1 [] 1 (some "approved") "t1", h.2.2.1 [] 1 (some "approved") "t1",
    h.2.2.2 [] 1 (some "approved") "t1"⟩

/-- C7 counterexample: a successful status update on the marriage handler
answers `{success: true}` only — its body contains neither a "status" nor a
"previousStatus" field, refuting the claim that all four application types
return the old and new status. -/
theorem update_status_response_counterexample :
    (marriageUpdateStatus [cexMarriageApp] 7 (some "approved") "t1").resp.code = 200 ∧
    (marriageUpdateStatus [cexMarriageApp] 7 (some "approved") "t1").resp.body.field "status"
      = none ∧
    (marriageUpdateStatus [cexMarriageApp] 7 (some "approved") "t1").resp.body.field
      "previousStatus" = none ∧
    (marriageUpdateStatus [cexMarriageApp] 7 (some "approved") "t1").resp.body.field
      "application" = none :=
  ⟨rfl, rfl, rfl, rfl⟩

/-- C5: every authenticated non-admin request to a per-user read endpoint
(list by username, detail by id, PDF by id, for all four application types)
whose target is owned by a different user answers 403; the error response
carries only a code and a message, never any application data.  For the list
endpoints the target owner is the username as the query normalizes it
(lowercased for visa/marriage/birth, verbatim for travel-pass). -/
theorem non_owner_read_forbidden (caller : String) :
    (∀ (db : List VisaApp) (username : String), username ≠ "" →
       caller ≠ strToLower username →
       visaListByUser db caller false username = .failure 403 "Access denied") ∧
    (∀ (db : List VisaApp) (i : Nat) (app : VisaApp), dbFind VisaApp.id db i = some app →
       caller ≠ app.user_name →
       visaGetById db caller false i = .failure 403 "Access denied") ∧
    (∀ (db : List VisaApp) (i : Nat) (app : VisaApp), dbFind VisaApp.id db i = some app →
       caller ≠ app.user_name →
       visaPdf db caller false i = .failure 403 "Access denied") ∧
    (∀ (db : List MarriageApp) (username : String), username ≠ "" →
       caller ≠ strToLower username →
       marriageListByUser db caller false username = .failure 403 "Access denied") ∧
    (∀ (db : List MarriageApp) (i : Nat) (app : MarriageApp),
       dbFind MarriageApp.id db i = some app → caller ≠ app.user_name →
       marriageGetById db caller false i = .failure 403 "Access denied") ∧
    (∀ (db : List MarriageApp) (i : Nat) (app : MarriageApp),
       dbFind MarriageApp.id db i = some app → caller ≠ app.user_name →
       marriagePdf db caller false i = .failure 403 "Access denied") ∧
    (∀ (db : List BirthApp) (username : String), username ≠ "" →
       caller ≠ strToLower username →
       birthListByUser db caller false username = .failure 403 "Access denied") ∧
    (∀ (db : List BirthApp) (i : Nat) (app : BirthApp),
       dbFind BirthApp.id db i = some app → caller ≠ app.user_name →
       birthGetById db caller false i = .failure 403 "Access denied") ∧
    (∀ (db : List BirthApp) (i : Nat) (app : BirthApp),
       dbFind BirthApp.id db i = some app → caller ≠ app.user_name →
       birthPdf db caller false i = .failure 403 "Access denied") ∧
    (∀ (db : List TravelApp) (username : String), caller ≠ username →
       travelListByUser db caller false username = .failure 403 "Forbidden") ∧
    (∀ (db : List TravelApp) (i : Nat) (app : TravelApp),
       dbFind TravelApp.id db i = some app → caller ≠ app.user_name →
       travelGetById db caller false i = .failure 403 "Access denied") ∧
    (∀ (db : List TravelApp) (i : Nat) (app : TravelApp),
       dbFind TravelApp.id db i = some app → caller ≠ app.user_name →
       travelPdf db caller false i = .failure 403 "Access denied") := by
  refine ⟨?_, ?_, ?_, ?_, ?_, ?_, ?_, ?_, ?_, ?_, ?_, ?_⟩
  · intro db username hu hc
    simp [visaListByUser, hu, hc]
  · intro db i app hf hc
    simp [visaGetById, hf, hc]
  · intro db i app hf hc
    simp [visaPdf, hf, hc]
  · intro db username hu hc
    simp [marriageListByUser, hu, hc]
  · intro db i app hf hc
    simp [marriageGetById, hf, hc]
  · intro db i app hf hc
    simp [marriagePdf, hf, hc]
  · intro db username hu hc
    simp [birthListByUser, hu, hc]
  · intro db i app hf hc
    simp [birthGetById, hf, hc]
  · intro db i app hf hc
    simp [birthPdf, hf, hc]
  · intro db username hc
    simp [travelListByUser, hc]
  · intro db i app hf hc
    simp [travelGetById, hf, hc]
  · intro db i app hf hc
    simp [travelPdf, hf, hc]

/-- C5 witness: the non-admin caller "alice(at)example.com" targeting rows and
usernames owned by "bob(at)example.com" draws 403 on all twelve per-user read
endpoints, at concrete one-row stores. -/
theorem non_owner_read_forbidden_witness :
    visaListByUser [mkVisaApp 1 "bob@example.com" "shortStay" "t0" []]
      "alice@example.com" false "bob@example.com" = .failure 403 "Access denied" ∧
    visaGetById [mkVisaApp 1 "bob@example.com" "shortStay" "t0" []]
      "alice@example.com" false 1 = .failure 403 "Access denied" ∧
    visaPdf [mkVisaApp 1 "bob@example.com" "shortStay" "t0" []]
      "alice@example.com" false 1 = .failure 403 "Access denied" ∧
    marriageListByUser [mkMarriageApp 1 "bob@example.com" "t0" []]
      "alice@example.com" false "bob@example.com" = .failure 403 "Access denied" ∧
    marriageGetById [mkMarriageApp 1 "bob@example.com" "t0" []]
      "alice@example.com" false 1 = .failure 403 "Access denied" ∧
    marriagePdf [mkMarriageApp 1 "bob@example.com" "t0" []]
      "alice@example.com" false 1 = .failure 403 "Access denied" ∧
    birthListByUser [mkBirthApp 1 "bob@example.com" "t0" []]
      "alice@example.com" false "bob@example.com" = .failure 403 "Access denied" ∧
    birthGetById [mkBirthApp 1 "bob@example.com" "t0" []]
      "alice@example.com" false 1 = .failure 403 "Access denied" ∧
    birthPdf [mkBirthApp 1 "bob@example.com" "t0" []]
      "alice@example.com" false 1 = .failure 403 "Access denied" ∧
    travelListByUser [mkTravelApp 1 9 "bob@example.com" "t0" []]
      "alice@example.com" false "bob@example.com" = .failure 403 "Forbidden" ∧
    travelGetById [mkTravelApp 1 9 "bob@example.com" "t0" []]
      "alice@example.com" false 1 = .failure 403 "Access denied" ∧
    travelPdf [mkTravelApp 1 9 "bob@example.com" "t0" []]
      "alice@example.com" false 1 = .failure 403 "Access denied" := by
  have h := non_owner_read_forbidden "alice@example.com"
  refine ⟨h.1 _ "bob@example.com" (by decide) (by decide),
    h.2.1 _ 1 (mkVisaApp 1 "bob@example.com" "shortStay" "t0" []) rfl (by decide),
    h.2.2.1 _ 1 (mkVisaApp 1 "bob@example.com" "shortStay" "t0" []) rfl (by decide),
    h.2.2.2.1 _ "bob@example.com" (by decide) (by decide),
    h.2.2.2.2.1 _ 1 (mkMarriageApp 1 "bob@example.com" "t0" []) rfl (by decide),
    h.2.2.2.2.2.1 _ 1 (mkMarriageApp 1 "bob@example.com" "t0" []) rfl (by decide),
    h.2.2.2.2.2.2.1 _ "bob@example.com" (by decide) (by decide),
    h.2.2.2.2.2.2.2.1 _ 1 (mkBirthApp 1 "bob@example.com" "t0" []) rfl (by decide),
    h.2.2.2.2.2.2.2.2.1 _ 1 (mkBirthApp 1 "bob@example.com" "t0" []) rfl (by decide),
    h.2.2.2.2.2.2.2.2.2.1 _ "bob@example.com" (by decide),
    h.2.2.2.2.2.2.2.2.2.2.1 _ 1 (mkTravelApp 1 9 "bob@example.com" "t0" []) rfl (by decide),
    h.2.2.2.2.2.2.2.2.2.2.2 _ 1 (mkTravelApp 1 9 "bob@example.com" "t0" []) rfl (by decide)⟩

section InvariantLemmas

theorem visaUpdateStatus_preserves (db : List VisaApp) (i : Nat) (st : Option String)
    (actor now : String) (cfg mail : Bool)
    (h : ∀ a ∈ db, a.status ∈ stdValidStatuses) :
    ∀ a ∈ (visaUpdateStatus db i st actor now cfg mail).db, a.status ∈ stdValidStatuses := by
  cases st with
  | none => exact h
  | some s =>
    by_cases hc : s = "" ∨ s ∉ stdValidStatuses
    · simpa [visaUpdateStatus, hc] using h
    · have hmem : s ∈ stdValidStatuses := not_not.mp (not_or.mp hc).2
      intro b hb
      simp only [visaUpdateStatus] at hb
      rw [if_neg hc] at hb
      cases hfind : dbFind VisaApp.id db i with
      | none =>
        rw [hfind] at hb
        exact h b hb
      | some app =>
        simp only [hfind] at hb
        obtain ⟨a, ha, hba | hba⟩ := dbUpdate_mem _ _ _ _ hb
        · rw [hba]; exact hmem
        · rw [hba]; exact h a ha

theorem marriageUpdateStatus_preserves (db : List MarriageApp) (i : Nat) (st : Option String)
    (now : String) (h : ∀ a ∈ db, a.status ∈ stdValidStatuses) :
    ∀ a ∈ (marriageUpdateStatus db i st now).db, a.status ∈ stdValidStatuses := by
  cases st with
  | none => exact h
  | some s =>
    by_cases hc : s = "" ∨ s ∉ stdValidStatuses
    · simpa [marriageUpdateStatus, hc] using h
    · have hmem : s ∈ stdValidStatuses := not_not.mp (not_or.mp hc).2
      intro b hb
      simp only [marriageUpdateStatus] at hb
      rw [if_neg hc] at hb
      obtain ⟨a, ha, hba | hba⟩ := dbUpdate_mem _ _ _ _ hb
      · rw [hba]; exact hmem
      · rw [hba]; exact h a ha

theorem birthUpdateStatus_preserves (db : List BirthApp) (i : Nat) (st : Option String)
    (now : String) (h : ∀ a ∈ db, a.status ∈ stdValidStatuses) :
    ∀ a ∈ (birthUpdateStatus db i st now).db, a.status ∈ stdValidStatuses := by
  cases st with
  | none => exact h
  | some s =>
    by_cases hc : s = "" ∨ s ∉ stdValidStatuses
    · simpa [birthUpdateStatus, hc] using h
    · have hmem : s ∈ stdValidStatuses := not_not.mp (not_or.mp hc).2
      intro b hb
      simp only [birthUpdateStatus] at hb
      rw [if_neg hc] at hb
      obtain ⟨a, ha, hba | hba⟩ := dbUpdate_mem _ _ _ _ hb
      · rw [hba]; exact hmem
      · rw [hba]; exact h a ha

theorem travelUpdateStatus_preserves (db : List TravelApp) (i : Nat) (st : Option String)
    (now : String) (h : ∀ a ∈ db, a.status ∈ travelValidStatuses) :
    ∀ a ∈ (travelUpdateStatus db i st now).db, a.status ∈ travelValidStatuses := by
  cases st with
  | none => exact h
  | some s =>
    by_cases hc : s ∉ travelValidStatuses
    · simpa [travelUpdateStatus, hc] using h
    · have hmem : s ∈ travelValidStatuses := not_not.mp hc
      intro b hb
      simp only [travelUpdateStatus] at hb
      rw [if_neg hc] at hb
      cases hfind : dbFind TravelApp.id db i with
      | none =>
        simp only [hfind] at hb
        obtain ⟨a, ha, hba | hba⟩ := dbUpdate_mem _ _ _ _ hb
        · rw [hba]; exact hmem
        · rw [hba]; exact h a ha
      | some app =>
        simp only [hfind] at hb
        cases hhist : travelReadHistory app.status_history with
        | none =>
          rw [hhist] at hb
          exact h b hb
        | some l =>
          simp only [hhist] at hb
          obtain ⟨a, ha, hba | hba⟩ := dbUpdate_mem _ _ _ _ hb
          · rw [hba]; exact hmem
          · rw [hba]; exact h a ha

theorem visaUpdateTracking_preserves (db : List VisaApp) (i : Nat)
    (tn carrier : Option String) (now : String) (cfg mail : Bool)
    (h : ∀ a ∈ db, a.status ∈ stdValidStatuses) :
    ∀ a ∈ (visaUpdateTracking db i tn carrier now cfg mail).db, a.status ∈ stdValidStatuses := by
  cases tn with
  | none => exact h
  | some t =>
    by_cases hc : t = "" ∨ t.trim = ""
    · simpa [visaUpdateTracking, hc] using h
    · intro b hb
      simp only [visaUpdateTracking] at hb
      rw [if_neg hc] at hb
      cases hfind : dbFind VisaApp.id db i with
      | none =>
        rw [hfind] at hb
        exact h b hb
      | some app =>
        simp only [hfind] at hb
        obtain ⟨a, ha, hba | hba⟩ := dbUpdate_mem _ _ _ _ hb
        · rw [hba]; exact h a ha
        · rw [hba]; exact h a ha

theorem marriageUpdateTracking_preserves (db : List MarriageApp) (i : Nat)
    (tn carrier : Option String) (now : String)
    (h : ∀ a ∈ db, a.status ∈ stdValidStatuses) :
    ∀ a ∈ (marriageUpdateTracking db i tn carrier now).db, a.status ∈ stdValidStatuses := by
  cases tn with
  | none => exact h
  | some t =>
    by_cases hc : t = ""
    · simpa [marriageUpdateTracking, hc] using h
    · intro b hb
      simp only [marriageUpdateTracking] at hb
      rw [if_neg hc] at hb
      obtain ⟨a, ha, hba | hba⟩ := dbUpdate_mem _ _ _ _ hb
      · rw [hba]; exact h a ha
      · rw [hba]; exact h a ha

theorem birthUpdateTracking_preserves (db : List BirthApp) (i : Nat)
    (tn carrier : Option String) (now : String)
    (h : ∀ a ∈ db, a.status ∈ stdValidStatuses) :
    ∀ a ∈ (birthUpdateTracking db i tn carrier now).db, a.status ∈ stdValidStatuses := by
  cases tn with
  | none => exact h
  | some t =>
    by_cases hc : t = ""
    · simpa [birthUpdateTracking, hc] using h
    · intro b hb
      simp only [birthUpdateTracking] at hb
      rw [if_neg hc] at hb
      obtain ⟨a, ha, hba | hba⟩ := dbUpdate_mem _ _ _ _ hb
      · rw [hba]; exact h a ha
      · rw [hba]; exact h a ha

theorem travelUpdateTracking_preserves (db : List TravelApp) (i : Nat)
    (tn carrier : Option String) (now : String)
    (h : ∀ a ∈ db, a.status ∈ travelValidStatuses) :
    ∀ a ∈ (travelUpdateTracking db i tn carrier now).db, a.status ∈ travelValidStatuses := by
  cases tn with
  | none => exact h
  | some t =>
    by_cases hc : t = ""
    · simpa [travelUpdateTracking, hc] using h
    · intro b hb
      simp only [travelUpdateTracking] at hb
      rw [if_neg hc] at hb
      obtain ⟨a, ha, hba | hba⟩ := dbUpdate_mem _ _ _ _ hb
      · rw [hba]; exact h a ha
      · rw [hba]; exact h a ha

end InvariantLemmas

/-- C8: in every reachable store state, each application row's status is a
member of its type's fixed enum — creation always results in a 'pending' row
(written literally by the visa and travel-pass INSERTs, supplied by the
schema default for marriage and birth), and every status-mutating handler
writes only a value that passed its enum-membership check. -/
theorem reachable_statuses_valid (s : Store) (h : Reachable s) : StatusesValid s := by
  induction h with
  | init => exact ⟨by simp [emptyStore], by simp [emptyStore], by simp [emptyStore],
      by simp [emptyStore]⟩
  | step _ hstep ih =>
    obtain ⟨ihV, ihM, ihB, ihT⟩ := ih
    cases hstep with
    | visaCreate i userName visaType now form =>
      refine ⟨?_, ihM, ihB, ihT⟩
      intro a ha
      rcases List.mem_append.mp ha with ha | ha
      · exact ihV a ha
      · rw [List.mem_singleton.mp ha]
        simp [mkVisaApp, stdValidStatuses]
    | marriageCreate i userName now form =>
      refine ⟨ihV, ?_, ihB, ihT⟩
      intro a ha
      rcases List.mem_append.mp ha with ha | ha
      · exact ihM a ha
      · rw [List.mem_singleton.mp ha]
        simp [mkMarriageApp, stdValidStatuses]
    | birthCreate i userName now form =>
      refine ⟨ihV, ihM, ?_, ihT⟩
      intro a ha
      rcases List.mem_append.mp ha with ha | ha
      · exact ihB a ha
      · rw [List.mem_singleton.mp ha]
        simp [mkBirthApp, stdValidStatuses]
    | travelCreate i userId userName now form =>
      refine ⟨ihV, ihM, ihB, ?_⟩
      intro a ha
      rcases List.mem_append.mp ha with ha | ha
      · exact ihT a ha
      · rw [List.mem_singleton.mp ha]
        simp [mkTravelApp, travelValidStatuses]
    | visaStatus i st actor now cfg mail =>
      exact ⟨visaUpdateStatus_preserves _ _ _ _ _ _ _ ihV, ihM, ihB, ihT⟩
    | marriageStatus i st now =>
      exact ⟨ihV, marriageUpdateStatus_preserves _ _ _ _ ihM, ihB, ihT⟩
    | birthStatus i st now =>
      exact ⟨ihV, ihM, birthUpdateStatus_preserves _ _ _ _ ihB, ihT⟩
    | travelStatus i st now =>
      exact ⟨ihV, ihM, ihB, travelUpdateStatus_preserves _ _ _ _ ihT⟩
    | visaTracking i tn carrier now cfg mail =>
      exact ⟨visaUpdateTracking_preserves _ _ _ _ _ _ _ ihV, ihM, ihB, ihT⟩
    | marriageTracking i tn carrier now =>
      exact ⟨ihV, marriageUpdateTracking_preserves _ _ _ _ _ ihM, ihB, ihT⟩
    | birthTracking i tn carrier now =>
      exact ⟨ihV, ihM, birthUpdateTracking_preserves _ _ _ _ _ ihB, ihT⟩
    | travelTracking i tn carrier now =>
      exact ⟨ihV, ihM, ihB, travelUpdateTracking_preserves _ _ _ _ _ ihT⟩

/-- C8 witness: a concrete store reached by creating one visa application and
one travel-pass application and then moving the visa to 'approved' satisfies
the status invariant. -/
theorem reachable_statuses_valid_witness :
    StatusesValid
      { emptyStore with
        visas := (visaUpdateStatus
          (emptyStore.visas ++ [mkVisaApp 1 "alice@example.com" "shortStay" "t0" []]) 1
          (some "approved") "admin@example.com" "t1" false false).db
        travels := emptyStore.travels ++ [mkTravelApp 1 9 "bob@example.com" "t0" []] } :=
  reachable_statuses_valid _
    (Reachable.step
      (Reachable.step
        (Reachable.step Reachable.init
          (Step.visaCreate emptyStore 1 "alice@example.com" "shortStay" "t0" []))
        (Step.travelCreate _ 1 9 "bob@example.com" "t0" []))
      (Step.visaStatus _ 1 (some "approved") "admin@example.com" "t1" false false))

/-- C9: creating a chat conversation twice with the same session id is
idempotent — the second call returns a conversation with the same id as the
first, and the chat state after the second call is exactly the state after
the first (no duplicate row). -/
theorem chat_conversation_idempotent (st : ChatState) (sid n e n2 e2 : String)
    (hs : sid ≠ "") (hn : n ≠ "") (he : e ≠ "") (hn2 : n2 ≠ "") (he2 : e2 ≠ "") :
    ∃ c1 ms1 c2 ms2,
      (chatConversation st sid n e).1 = .conv c1 ms1 ∧
      (chatConversation (chatConversation st sid n e).2 sid n2 e2).1 = .conv c2 ms2 ∧
      c2.id = c1.id ∧
      (chatConversation (chatConversation st sid n e).2 sid n2 e2).2 =
        (chatConversation st sid n e).2 := by
  have hg1 : ¬ (sid = "" ∨ n = "" ∨ e = "") := by simp [hs, hn, he]
  have hg2 : ¬ (sid = "" ∨ n2 = "" ∨ e2 = "") := by simp [hs, hn2, he2]
  cases hfind : findConvBySession st.convs sid with
  | some c =>
    refine ⟨c, st.msgs.filter (fun m => m.conversation_id == c.id),
      c, st.msgs.filter (fun m => m.conversation_id == c.id), ?_, ?_, rfl, ?_⟩
    · simp only [chatConversation]
      rw [if_neg hg1]
      simp [hfind]
    · simp only [chatConversation]
      rw [if_neg hg1, if_neg hg2]
      simp [hfind]
    · simp only [chatConversation]
      rw [if_neg hg1, if_neg hg2]
      simp [hfind]
  | none =>
    set c : ChatConv :=
      { id := st.nextConvId, session_id := sid, user_name := n,
        user_email := e, status := "active" } with hc
    have hcs : (c.session_id == sid) = true := by simp [hc]
    have happ : findConvBySession (st.convs ++ [c]) sid = some c :=
      findConv_append_of_none st.convs sid c hfind hcs
    have hstep1 :
        chatConversation st sid n e =
          (.conv c [], { st with convs := st.convs ++ [c], nextConvId := st.nextConvId + 1 }) := by
      simp only [chatConversation]
      rw [if_neg hg1]
      simp [hfind]
    refine ⟨c, [], c,
      ({ st with convs := st.convs ++ [c], nextConvId := st.nextConvId + 1 } : ChatState).msgs.filter
        (fun m => m.conversation_id == c.id), ?_, ?_, rfl, ?_⟩
    · rw [hstep1]
    · rw [hstep1]
      simp only [chatConversation]
      rw [if_neg hg2]
      simp [happ]
    · rw [hstep1]
      simp only [chatConversation]
      rw [if_neg hg2]
      simp [happ]

/-- C9 witness: starting from the empty chat state, two calls with session id
"sess-1" (even with different visitor names) agree on the conversation id and
the second call leaves the state untouched. -/
theorem chat_conversation_idempotent_witness :
    ∃ c1 ms1 c2 ms2,
      (chatConversation ⟨[], [], 1⟩ "sess-1" "Alice" "alice@example.com").1 = .conv c1 ms1 ∧
      (chatConversation (chatConversation ⟨[], [], 1⟩ "sess-1" "Alice" "alice@example.com").2
        "sess-1" "Bob" "bob@example.com").1 = .conv c2 ms2 ∧
      c2.id = c1.id ∧
      (chatConversation (chatConversation ⟨[], [], 1⟩ "sess-1" "Alice" "alice@example.com").2
        "sess-1" "Bob" "bob@example.com").2 =
        (chatConversation ⟨[], [], 1⟩ "sess-1" "Alice" "alice@example.com").2 :=
  chat_conversation_idempotent ⟨[], [], 1⟩ "sess-1" "Alice" "alice@example.com" "Bob"
    "bob@example.com" (by decide) (by decide) (by decide) (by decide) (by decide)

/-- C10: every token issued by signup carries `isAdmin: false`, whatever the
signed-up username; a token issued by login carries
`isAdmin = username.includes('admin')` recomputed from the stored username. -/
theorem signup_login_isAdmin :
    (∀ (db : UsersTable) (u p f l : String) (tok : TokenPayload) (uid : Nat)
       (un fn : String) (adm : Bool) (st : UsersTable),
       signup db u p f l = (.signedIn tok uid un fn adm, st) → tok.isAdmin = false) ∧
    (∀ (db : UsersTable) (u p : String) (tok : TokenPayload) (uid : Nat)
       (un fn : String) (adm : Bool),
       login db u p = .signedIn tok uid un fn adm →
       tok.isAdmin = strContains tok.username "admin") := by
  constructor
  · intro db u p f l tok uid un fn adm st hsign
    by_cases hdup : (db.rows.any (fun x => x.username == strToLower u)) = true
    · simp [signup, hdup] at hsign
    · simp only [signup, Bool.not_eq_true] at hsign
      rw [if_neg (by simp [hdup])] at hsign
      obtain ⟨h1, -⟩ := Prod.mk.injEq .. ▸ hsign
      cases h1
      rfl
  · intro db u p tok uid un fn adm hlog
    cases hfind : db.rows.find? (fun x => x.username == strToLower u) with
    | none => simp [login, hfind] at hlog
    | some user =>
      by_cases hpw : bcryptCompare p user.password = false
      · simp [login, hfind, hpw] at hlog
      · simp only [login, hfind] at hlog
        rw [if_neg hpw] at hlog
        cases hlog
        rfl

/-- C10 witness: signing up "Admin@Example.com" issues a token with
`isAdmin = false` even though the stored lowercased username contains
"admin"; logging in with the stored row then issues `isAdmin = true`, the
substring check on the stored username. -/
theorem signup_login_isAdmin_witness :
    (signup ⟨[], 1⟩ "Admin@Example.com" "pw1" "Ada" "Min").1 =
      .signedIn ⟨1, "admin@example.com", false⟩ 1 "admin@example.com" "Ada Min" false ∧
    login ⟨[⟨1, "admin@example.com", bcryptHash "pw1", "Ada", "Min"⟩], 2⟩
        "admin@example.com" "pw1" =
      .signedIn ⟨1, "admin@example.com", true⟩ 1 "admin@example.com" "Ada Min" true ∧
    (⟨1, "admin@example.com", false⟩ : TokenPayload).isAdmin = false ∧
    (⟨1, "admin@example.com", true⟩ : TokenPayload).isAdmin =
      strContains "admin@example.com" "admin" := by
  refine ⟨by decide, by decide, ?_, ?_⟩
  · exact signup_login_isAdmin.1 ⟨[], 1⟩ "Admin@Example.com" "pw1" "Ada" "Min"
      ⟨1, "admin@example.com", false⟩ 1 "admin@example.com" "Ada Min" false
      ⟨[⟨1, "admin@example.com", bcryptHash "pw1", "Ada", "Min"⟩], 2⟩ (by decide)
  · exact signup_login_isAdmin.2
      ⟨[⟨1, "admin@example.com", bcryptHash "pw1", "Ada", "Min"⟩], 2⟩
      "admin@example.com" "pw1" ⟨1, "admin@example.com", true⟩ 1 "admin@example.com"
      "Ada Min" true (by decide)

end Embassy
